import Mathlib

set_option autoImplicit false

/-!
Shallow embedding of the WebRTC signaling relay in
`src/video_calling_backend/src/api/signaling.py`.

Modelling conventions:
  * User ids are the integer values of Python `uuid.UUID` objects, modelled as `Nat`.
  * A websocket is identified by an opaque channel id (`Nat`); "writing a message to
    a channel" is recorded as data in the step result rather than performed.
  * Python JSON values appearing in the `type` / `to` / `roomId` slots are modelled by
    `PyVal` (null, bool, int, string).  JSON floats, arrays and nested objects are not
    modelled: the relay treats payload fields as opaque, and only the three routing
    slots are ever inspected.
  * A parsed JSON object (Python `dict`) is an association list with unique keys and
    insertion order, as produced by `json.loads`.
  * `datetime.utcnow()` is modelled by an explicit `now : Nat` parameter per event.
  * The SQLAlchemy call-session table is a list of `CallSession` records in insertion
    order; `query(...).filter(...).first()` takes the first matching record,
    `db.add` appends, attribute assignment updates in place, and a failing
    `commit` followed by `rollback` leaves the list unchanged.
-/

namespace Signaling

/-- Model of a Python value in a decoded JSON message slot. -/
inductive PyVal where
  | vNull
  | vBool (b : Bool)
  | vInt (n : Int)
  | vStr (s : String)
  deriving DecidableEq

/-- Python `str(v)` on a modelled value. -/
def pyToStr : PyVal → String
  | .vNull => "None"
  | .vBool true => "True"
  | .vBool false => "False"
  | .vInt n => toString n
  | .vStr s => s

/-- Python truthiness of a modelled value. -/
def pyTruthy : PyVal → Bool
  | .vNull => false
  | .vBool b => b
  | .vInt n => decide (n ≠ 0)
  | .vStr s => decide (s ≠ "")

/-- ASCII whitespace stripped by Python `str.strip()` (exotic unicode spaces not modelled). -/
def pyIsSpace (c : Char) : Bool :=
  c = ' ' || c = '\t' || c = '\n' || c = '\r' || c = Char.ofNat 11 || c = Char.ofNat 12

/-- Python `s.strip()`. -/
def pyStrip (s : String) : String :=
  String.mk (((s.data.dropWhile pyIsSpace).reverse.dropWhile pyIsSpace).reverse)

/-- Python `str(v or "")` applied to the result of `dict.get` (missing key gives `None`,
which is falsy, hence the empty string). -/
def strOrEmpty : Option PyVal → String
  | none => ""
  | some v => if pyTruthy v then pyToStr v else ""

/-- Python `str.replace("urn:", "")`: drop every occurrence, left to right. -/
def removeURN : List Char → List Char
  | 'u' :: 'r' :: 'n' :: ':' :: rest => removeURN rest
  | c :: rest => c :: removeURN rest
  | [] => []

/-- Python `str.replace("uuid:", "")`: drop every occurrence, left to right. -/
def removeUUIDTok : List Char → List Char
  | 'u' :: 'u' :: 'i' :: 'd' :: ':' :: rest => removeUUIDTok rest
  | c :: rest => c :: removeUUIDTok rest
  | [] => []

/-- Either curly-brace character (written by code so that no brace appears in a literal). -/
def isBraceChar (c : Char) : Bool :=
  c = Char.ofNat 123 || c = Char.ofNat 125

/-- Python `str.strip(braces)`: remove leading and trailing brace characters. -/
def stripBraces (l : List Char) : List Char :=
  ((l.dropWhile isBraceChar).reverse.dropWhile isBraceChar).reverse

/-- Hexadecimal digit, both cases. -/
def isHexChar (c : Char) : Bool :=
  ('0' ≤ c && c ≤ '9') || ('a' ≤ c && c ≤ 'f') || ('A' ≤ c && c ≤ 'F')

/-- Numeric value of a hexadecimal digit. -/
def hexCharVal (c : Char) : Nat :=
  if '0' ≤ c && c ≤ '9' then c.toNat - 48
  else if 'a' ≤ c && c ≤ 'f' then c.toNat - 87
  else c.toNat - 55

/-- Value of a big-endian hexadecimal digit string. -/
def hexListVal (l : List Char) : Nat :=
  l.foldl (fun acc c => acc * 16 + hexCharVal c) 0

/-- Model of Python `uuid.UUID(s)` (CPython: strip the `urn:` / `uuid:` markers and
braces, remove dashes, then require 32 hex digits).  The exotic integer-literal
forms accepted by `int(s, 16)` (signs, `0x`, underscores) are not modelled. -/
def pyUUID (s : String) : Option Nat :=
  let h := removeUUIDTok (removeURN s.data)
  let h := (stripBraces h).filter (fun c => c ≠ '-')
  if h.length = 32 && h.all isHexChar then some (hexListVal h) else none

/-- Model of `_get_uuid` in `signaling.py`: `uuid.UUID(str(value))`, `None` on failure;
a missing key arrives as `None`, and `str(None)` is the string `"None"`. -/
def get_uuid (v : Option PyVal) : Option Nat :=
  pyUUID (pyToStr (v.getD PyVal.vNull))

/-- Lowercase hexadecimal digit character. -/
def hexDigitChar (n : Nat) : Char :=
  if n < 10 then Char.ofNat (48 + n) else Char.ofNat (87 + n)

/-- 32 lowercase hex digits of a UUID integer value, big-endian. -/
def toHex32 (n : Nat) : List Char :=
  (List.range 32).map (fun i => hexDigitChar (n / 16 ^ (31 - i) % 16))

/-- Model of Python `str(uuid.UUID)`: canonical lowercase 8-4-4-4-12 form. -/
def uuidToString (n : Nat) : String :=
  let h := toHex32 n
  String.mk (h.take 8 ++ '-' ::
    ((h.drop 8).take 4 ++ '-' ::
      ((h.drop 12).take 4 ++ '-' ::
        ((h.drop 16).take 4 ++ '-' :: h.drop 20))))

/-- An opaque websocket channel id. -/
abbrev Channel := Nat

/-- The `SignalingManager._connections` dict, as an association list with unique keys
in insertion order. -/
abbrev Registry := List (Nat × Channel)

/-- A decoded JSON object (Python dict): keys with values, insertion order. -/
abbrev Msg := List (String × PyVal)

namespace SignalingManager

/-- `connect`: `self._connections[user_id] = websocket`.  Python dict assignment keeps
the position of an existing key and appends a fresh one. -/
def connect (conns : Registry) (user_id : Nat) (websocket : Channel) : Registry :=
  if (conns.lookup user_id).isSome then
    conns.map (fun p => if p.1 = user_id then (user_id, websocket) else p)
  else conns ++ [(user_id, websocket)]

/-- `disconnect`: `self._connections.pop(user_id, None)` — unconditional removal of
the entry for `user_id`, whatever channel it stores (keys are unique, so removing
every pair with this key equals dict `pop`). -/
def disconnect (conns : Registry) (user_id : Nat) : Registry :=
  conns.filter (fun p => p.1 ≠ user_id)

/-- `send_to_user`: look up the user; absent gives `False` and nothing is written
(a live websocket object is always truthy, so `if not ws` means absence); present
writes the message to the stored channel and returns `True`. -/
def send_to_user (conns : Registry) (user_id : Nat) (message : Msg) :
    Bool × Option (Channel × Msg) :=
  match conns.lookup user_id with
  | none => (false, none)
  | some ws => (true, some (ws, message))

end SignalingManager

/-- One row of the `call_sessions` table (fields the relay core reads or writes;
`id` is a random primary key and `last_error` is never touched by the core). -/
structure CallSession where
  room_id : String
  caller_user_id : Nat
  callee_user_id : Nat
  started_at : Nat
  ended_at : Option Nat
  active : Bool
  last_event_type : Option String
  last_event_at : Option Nat
  deriving DecidableEq

/-- The record added by `_touch_call_session` when no active record exists. -/
def new_call_session (rid : String) (caller_id callee_id : Nat) (event_type : String)
    (now : Nat) : CallSession :=
  ⟨rid, caller_id, callee_id, now, none, true, some event_type, some now⟩

/-- The in-place update `_touch_call_session` performs on the existing active record. -/
def apply_event (s : CallSession) (event_type : String) (now : Nat) : CallSession :=
  let s2 := { s with last_event_type := some event_type, last_event_at := some now }
  if event_type = "hangup" then { s2 with active := false, ended_at := some now } else s2

/-- Model of `_touch_call_session`: find the first active record for `room_id`
(`query(...).filter(room_id, active).first()`); if none, append a fresh active record
(`db.add`); otherwise update it in place, deactivating on a `hangup` event. -/
def touch_call_session (db : List CallSession) (rid : String) (caller_id callee_id : Nat)
    (event_type : String) (now : Nat) : List CallSession :=
  match db with
  | [] => [new_call_session rid caller_id callee_id event_type now]
  | s :: rest =>
    if s.room_id = rid ∧ s.active = true then apply_event s event_type now :: rest
    else s :: touch_call_session rest rid caller_id callee_id event_type now

/-- `str(msg.get("type") or "").strip()` — signaling loop line 115. -/
def msg_type (msg : Msg) : String :=
  pyStrip (strOrEmpty (msg.lookup "type"))

/-- `_get_uuid(msg.get("to"))` — signaling loop line 116. -/
def to_id (msg : Msg) : Option Nat :=
  get_uuid (msg.lookup "to")

/-- `str(msg.get("roomId") or "").strip() or "default"` — signaling loop line 117. -/
def room_id (msg : Msg) : String :=
  let r := pyStrip (strOrEmpty (msg.lookup "roomId"))
  if r = "" then "default" else r

/-- The four recognized message types. -/
def recognizedTypes : List String := ["offer", "answer", "candidate", "hangup"]

/-- Python dict item assignment `d[k] = v` on a decoded JSON object: update in place
when the key is present, append otherwise. -/
def strDictSet (d : Msg) (k : String) (v : PyVal) : Msg :=
  if (d.lookup k).isSome then
    d.map (fun p => if p.1 = k then (k, v) else p)
  else d ++ [(k, v)]

/-- The forwarded envelope, lines 134 to 136: copy every field except `to`, then stamp
`from = str(current_user_id)` and `roomId = room_id`. -/
def forwardMsg (msg : Msg) (me : Nat) (rid : String) : Msg :=
  strDictSet (strDictSet (msg.filter (fun p => p.1 ≠ "to")) "from"
    (PyVal.vStr (uuidToString me))) "roomId" (PyVal.vStr rid)

/-- The apostrophe character, kept out of string literals. -/
def sq : String := String.mk [Char.ofNat 39]

/-- The unknown-type error reply of line 120. -/
def errorUnknown : Msg :=
  [("type", PyVal.vStr "error"), ("detail", PyVal.vStr "Unknown message type.")]

/-- The detail text of the missing-target error reply of line 124. -/
def missingToDetail : String :=
  "Missing/invalid " ++ sq ++ "to" ++ sq ++ " user id."

/-- The missing-target error reply of line 124. -/
def errorMissingTo : Msg :=
  [("type", PyVal.vStr "error"), ("detail", PyVal.vStr missingToDetail)]

/-- The offline notice of line 140. -/
def peerOffline (target : Nat) (rid : String) : Msg :=
  [("type", PyVal.vStr "peer_offline"), ("to", PyVal.vStr (uuidToString target)),
   ("roomId", PyVal.vStr rid)]

/-- What one frame received by `websocket.receive_text` parses to: text that
`json.loads` rejects, a JSON value that is not an object, or a JSON object. -/
inductive Frame where
  | invalidJson
  | nonObject (v : PyVal)
  | obj (msg : Msg)
  deriving DecidableEq

/-- Shared mutable state seen by one session: the process-wide registry and the
call-session table. -/
structure LoopState where
  reg : Registry
  db : List CallSession
  deriving DecidableEq

/-- Observable outcome of one iteration of the read loop: the new shared state, the
replies written back on the session socket, the message written to a peer channel
(if any), and whether an uncaught exception escaped the loop body. -/
structure StepResult where
  reg : Registry
  db : List CallSession
  toSender : List Msg
  delivered : Option (Channel × Msg)
  crashed : Bool
  deriving DecidableEq

/-- One iteration of the read loop (lines 109 to 140) on one received frame.
`persistFails` tells whether the call-session update or its `commit` raises, in
which case the `except` branch rolls the transaction back, leaving the table
unchanged.  A frame whose JSON decoding fails is skipped by the inner
`try/except` around `json.loads`; a frame decoding to a non-object value raises
`AttributeError` at `msg.get("type")`, outside that `try`, which escapes the loop. -/
def handle_frame (me : Nat) (st : LoopState) (f : Frame) (now : Nat)
    (persistFails : Bool) : StepResult :=
  match f with
  | .invalidJson => ⟨st.reg, st.db, [], none, false⟩
  | .nonObject _ => ⟨st.reg, st.db, [], none, true⟩
  | .obj msg =>
    let t := msg_type msg
    if t ∉ recognizedTypes then ⟨st.reg, st.db, [errorUnknown], none, false⟩
    else
      match to_id msg with
      | none => ⟨st.reg, st.db, [errorMissingTo], none, false⟩
      | some target =>
        let db2 := if persistFails then st.db
          else touch_call_session st.db (room_id msg) me target t now
        let res := SignalingManager.send_to_user st.reg target (forwardMsg msg me (room_id msg))
        if res.1 then ⟨st.reg, db2, [], res.2, false⟩
        else ⟨st.reg, db2, [peerOffline target (room_id msg)], none, false⟩

/-- One occurrence at the blocking `receive_text` call: a frame arrives, the client
disconnects (`WebSocketDisconnect`), or the transport fails with another exception. -/
inductive InEvent where
  | frame (f : Frame) (now : Nat) (persistFails : Bool)
  | wsDisconnect
  | transportError
  deriving DecidableEq

/-- Accumulated outcome of running the read loop over a script of events. -/
structure RunResult where
  state : LoopState
  sent : List Msg
  deliveredAll : List (Channel × Msg)
  exited : Bool
  deriving DecidableEq

/-- The `while True` read loop: stops (exited) on disconnect, transport error, or an
exception escaping the loop body; otherwise consumes the event and continues.
An exhausted script with `exited = false` models a session still blocked reading. -/
def run_loop (me : Nat) (st : LoopState) : List InEvent → RunResult
  | [] => ⟨st, [], [], false⟩
  | .wsDisconnect :: _ => ⟨st, [], [], true⟩
  | .transportError :: _ => ⟨st, [], [], true⟩
  | .frame f now pf :: rest =>
    let r := handle_frame me st f now pf
    if r.crashed then ⟨⟨r.reg, r.db⟩, r.toSender, r.delivered.toList, true⟩
    else
      let k := run_loop me ⟨r.reg, r.db⟩ rest
      ⟨k.state, r.toSender ++ k.sent, r.delivered.toList ++ k.deliveredAll, k.exited⟩

/-- Final outcome of one whole session. -/
structure SessionResult where
  reg : Registry
  db : List CallSession
  sent : List Msg
  deliveredAll : List (Channel × Msg)
  exited : Bool
  deriving DecidableEq

/-- Model of `signaling_loop` (lines 105 to 145): register the caller, run the read
loop, and on any exit from it run the `finally` block, which unregisters the caller
(`WebSocketDisconnect` is additionally swallowed by the `except` clause; any other
exception propagates after the `finally`, ending the session either way). -/
def signaling_loop (me : Nat) (websocket : Channel) (reg0 : Registry)
    (db0 : List CallSession) (events : List InEvent) : SessionResult :=
  let st1 : LoopState := ⟨SignalingManager.connect reg0 me websocket, db0⟩
  let r := run_loop me st1 events
  if r.exited then
    ⟨SignalingManager.disconnect r.state.reg me, r.state.db, r.sent, r.deliveredAll, true⟩
  else ⟨r.state.reg, r.state.db, r.sent, r.deliveredAll, false⟩

/-- Number of active call-session records for a given room. -/
def activeCount (rid : String) (db : List CallSession) : Nat :=
  List.countP (fun s => decide (s.room_id = rid ∧ s.active = true)) db

/-! ### Helper lemmas -/

theorem lookup_filter_key_none {α β : Type} [DecidableEq α] (k : α) (l : List (α × β)) :
    (l.filter (fun p => p.1 ≠ k)).lookup k = none := by
  induction l with
  | nil => rfl
  | cons p t ih =>
    obtain ⟨a, b⟩ := p
    rw [List.filter_cons]
    by_cases h : a = k
    · rw [if_neg (by simp [h])]
      exact ih
    · rw [if_pos (by simp [h])]
      have hb : (k == a) = false := by simp [Ne.symm h]
      simp only [List.lookup_cons, hb]
      exact ih

theorem lookup_filter_key_ne {α β : Type} [DecidableEq α] (k k0 : α) (l : List (α × β))
    (h : k ≠ k0) :
    (l.filter (fun p => p.1 ≠ k0)).lookup k = l.lookup k := by
  induction l with
  | nil => rfl
  | cons p t ih =>
    obtain ⟨a, b⟩ := p
    rw [List.filter_cons]
    by_cases hp : a = k0
    · rw [if_neg (by simp [hp])]
      have hb : (k == a) = false := by simp [hp, h]
      simp only [List.lookup_cons, hb]
      exact ih
    · rw [if_pos (by simp [hp])]
      simp only [List.lookup_cons]
      by_cases hk : k = a
      · simp [hk]
      · have hb : (k == a) = false := by simp [hk]
        simp only [hb]
        exact ih

theorem lookup_append_right {α β : Type} [DecidableEq α] (k : α) (l1 l2 : List (α × β))
    (h : l1.lookup k = none) : (l1 ++ l2).lookup k = l2.lookup k := by
  induction l1 with
  | nil => rfl
  | cons p t ih =>
    obtain ⟨a, b⟩ := p
    simp only [List.cons_append, List.lookup_cons] at h ⊢
    by_cases hk : k = a
    · simp [hk] at h
    · have hb : (k == a) = false := by simp [hk]
      simp only [hb] at h ⊢
      exact ih h

/-! ### Claim C1 -/

/-- Claim C1 (counterexample): the claim as stated fails on the code.  With
register(u = 0, c1 = 1) then register(u = 0, c2 = 2), a disconnect issued for
the stale session removes the registry entry, so the lookup of u no longer
returns c2. -/
theorem stale_disconnect_evicts_newer_connection :
    ¬ ((SignalingManager.disconnect
        (SignalingManager.connect (SignalingManager.connect [] 0 1) 0 2) 0).lookup 0
      = some 2) := by decide

/-- Claim C1, amended: `disconnect` removes the registry entry for the user
unconditionally — it never compares the stored channel with the channel of the
session that is unregistering.  After register(u, c1) then register(u, c2) with
c2 distinct from c1, an unregister by the stale session that owned c1 removes
the entry, so a subsequent lookup of u returns nothing (the newer registration
c2 is evicted). -/
theorem disconnect_removes_entry_unconditionally (reg : Registry) (u c1 c2 : Nat)
    (h : c2 ≠ c1) :
    (SignalingManager.disconnect
      (SignalingManager.connect (SignalingManager.connect reg u c1) u c2) u).lookup u
      = none :=
  lookup_filter_key_none u _

/-- Claim C1 witness: the amended statement evaluated at u = 0, c1 = 1, c2 = 2. -/
theorem disconnect_removes_entry_unconditionally_check :
    (2 : Nat) ≠ 1 ∧
    (SignalingManager.disconnect
      (SignalingManager.connect (SignalingManager.connect [] 0 1) 0 2) 0).lookup 0
      = none :=
  ⟨by decide, disconnect_removes_entry_unconditionally [] 0 1 2 (by decide)⟩

/-! ### Claim C4 -/

/-- Claim C4 (counterexample): the claim as stated fails on the code.  The frame
consisting of the JSON text 42 cannot be parsed as the expected structured
message, yet it terminates the session: `json.loads` succeeds, and the
subsequent `msg.get("type")` raises `AttributeError` outside the inner
`try/except`, so the read loop exits — in contrast to a frame that is not
valid JSON at all, which leaves the loop running. -/
theorem nonobject_json_frame_terminates_session :
    (run_loop 0 ⟨[(0, 7)], []⟩ [InEvent.frame (Frame.nonObject (PyVal.vInt 42)) 0 false]).exited
      = true ∧
    (run_loop 0 ⟨[(0, 7)], []⟩ [InEvent.frame Frame.invalidJson 0 false]).exited = false := by
  decide

/-- Claim C4, amended: for every inbound frame that is not valid JSON text, the
session sends nothing back, relays nothing, leaves registry and call-session
state unchanged, and continues its read loop; but a frame that is valid JSON
while not a JSON object raises at `msg.get` and terminates the session. -/
theorem malformed_frames_skipped_silently :
    (∀ me st now pf, handle_frame me st Frame.invalidJson now pf =
        ⟨st.reg, st.db, [], none, false⟩) ∧
    (∀ me st now pf rest,
        run_loop me st (InEvent.frame Frame.invalidJson now pf :: rest) =
          run_loop me st rest) ∧
    (∀ me st v now pf, (handle_frame me st (Frame.nonObject v) now pf).crashed = true) ∧
    (∀ me st v now pf rest,
        (run_loop me st (InEvent.frame (Frame.nonObject v) now pf :: rest)).exited = true) := by
  refine ⟨fun me st now pf => rfl, fun me st now pf rest => ?_,
    fun me st v now pf => rfl, fun me st v now pf rest => rfl⟩
  show (let k := run_loop me ⟨st.reg, st.db⟩ rest;
    (⟨k.state, [] ++ k.sent, [] ++ k.deliveredAll, k.exited⟩ : RunResult)) = run_loop me st rest
  simp

/-! ### Reductions of the loop body -/

theorem handle_frame_unknown_type (me : Nat) (st : LoopState) (msg : Msg) (now : Nat)
    (pf : Bool) (ht : msg_type msg ∉ recognizedTypes) :
    handle_frame me st (Frame.obj msg) now pf =
      ⟨st.reg, st.db, [errorUnknown], none, false⟩ := by
  simp only [handle_frame]
  rw [if_pos ht]

theorem handle_frame_missing_to (me : Nat) (st : LoopState) (msg : Msg) (now : Nat)
    (pf : Bool) (ht : msg_type msg ∈ recognizedTypes) (hto : to_id msg = none) :
    handle_frame me st (Frame.obj msg) now pf =
      ⟨st.reg, st.db, [errorMissingTo], none, false⟩ := by
  simp only [handle_frame]
  rw [if_neg (not_not_intro ht), hto]

theorem handle_frame_delivers (me : Nat) (st : LoopState) (msg : Msg) (now : Nat)
    (pf : Bool) (B : Nat) (ch : Channel) (ht : msg_type msg ∈ recognizedTypes)
    (hto : to_id msg = some B) (hch : st.reg.lookup B = some ch) :
    handle_frame me st (Frame.obj msg) now pf =
      ⟨st.reg,
       if pf then st.db else touch_call_session st.db (room_id msg) me B (msg_type msg) now,
       [], some (ch, forwardMsg msg me (room_id msg)), false⟩ := by
  simp only [handle_frame]
  rw [if_neg (not_not_intro ht), hto]
  simp [SignalingManager.send_to_user, hch]

theorem handle_frame_offline (me : Nat) (st : LoopState) (msg : Msg) (now : Nat)
    (pf : Bool) (B : Nat) (ht : msg_type msg ∈ recognizedTypes)
    (hto : to_id msg = some B) (hch : st.reg.lookup B = none) :
    handle_frame me st (Frame.obj msg) now pf =
      ⟨st.reg,
       if pf then st.db else touch_call_session st.db (room_id msg) me B (msg_type msg) now,
       [peerOffline B (room_id msg)], none, false⟩ := by
  simp only [handle_frame]
  rw [if_neg (not_not_intro ht), hto]
  simp [SignalingManager.send_to_user, hch]

/-! ### Lookup behaviour of dict updates -/

theorem lookup_map_set_self (d : Msg) (k : String) (v : PyVal)
    (h : (d.lookup k).isSome = true) :
    (d.map (fun p => if p.1 = k then (k, v) else p)).lookup k = some v := by
  induction d with
  | nil => simp at h
  | cons p t ih =>
    obtain ⟨a, b⟩ := p
    by_cases ha : a = k
    · simp [ha]
    · have hb : (k == a) = false := by simp [Ne.symm ha]
      simp only [List.map_cons]
      rw [if_neg ha]
      simp only [List.lookup_cons, hb]
      apply ih
      simp only [List.lookup_cons, hb] at h
      exact h

theorem lookup_map_set_ne (d : Msg) (k k2 : String) (v : PyVal) (h : k2 ≠ k) :
    (d.map (fun p => if p.1 = k then (k, v) else p)).lookup k2 = d.lookup k2 := by
  induction d with
  | nil => rfl
  | cons p t ih =>
    obtain ⟨a, b⟩ := p
    by_cases ha : a = k
    · have hb : (k2 == k) = false := by simp [h]
      simp only [List.map_cons]
      rw [if_pos ha]
      simp only [List.lookup_cons, hb, ha]
      exact ih
    · by_cases hk2 : k2 = a
      · simp only [List.map_cons]
        rw [if_neg ha]
        simp [List.lookup_cons, hk2]
      · have hb : (k2 == a) = false := by simp [hk2]
        simp only [List.map_cons]
        rw [if_neg ha]
        simp only [List.lookup_cons, hb]
        exact ih

theorem lookup_append_single_ne (d : Msg) (k k2 : String) (v : PyVal) (h : k2 ≠ k) :
    (d ++ [(k, v)]).lookup k2 = d.lookup k2 := by
  induction d with
  | nil =>
    have hb : (k2 == k) = false := by simp [h]
    simp [List.lookup_cons, hb]
  | cons p t ih =>
    obtain ⟨a, b⟩ := p
    simp only [List.cons_append, List.lookup_cons]
    cases hx : (k2 == a) <;> simp [ih]

theorem lookup_strDictSet_self (d : Msg) (k : String) (v : PyVal) :
    (strDictSet d k v).lookup k = some v := by
  unfold strDictSet
  by_cases h : (d.lookup k).isSome
  · rw [if_pos h]
    exact lookup_map_set_self d k v h
  · rw [if_neg h]
    rw [lookup_append_right k d [(k, v)] (Option.not_isSome_iff_eq_none.mp h)]
    simp

theorem lookup_strDictSet_ne (d : Msg) (k k2 : String) (v : PyVal) (h : k2 ≠ k) :
    (strDictSet d k v).lookup k2 = d.lookup k2 := by
  unfold strDictSet
  by_cases hs : (d.lookup k).isSome
  · rw [if_pos hs]
    exact lookup_map_set_ne d k k2 v h
  · rw [if_neg hs]
    exact lookup_append_single_ne d k k2 v h

/-! ### Lookup behaviour of the forwarded envelope -/

theorem forwardMsg_lookup_from (msg : Msg) (me : Nat) (rid : String) :
    (forwardMsg msg me rid).lookup "from" = some (PyVal.vStr (uuidToString me)) := by
  unfold forwardMsg
  rw [lookup_strDictSet_ne _ _ _ _ (by decide)]
  exact lookup_strDictSet_self _ _ _

theorem forwardMsg_lookup_roomId (msg : Msg) (me : Nat) (rid : String) :
    (forwardMsg msg me rid).lookup "roomId" = some (PyVal.vStr rid) := by
  unfold forwardMsg
  exact lookup_strDictSet_self _ _ _

theorem forwardMsg_lookup_to (msg : Msg) (me : Nat) (rid : String) :
    (forwardMsg msg me rid).lookup "to" = none := by
  unfold forwardMsg
  rw [lookup_strDictSet_ne _ _ _ _ (by decide), lookup_strDictSet_ne _ _ _ _ (by decide)]
  exact lookup_filter_key_none "to" msg

theorem forwardMsg_lookup_other (msg : Msg) (me : Nat) (rid : String) (k : String)
    (h1 : k ≠ "to") (h2 : k ≠ "from") (h3 : k ≠ "roomId") :
    (forwardMsg msg me rid).lookup k = msg.lookup k := by
  unfold forwardMsg
  rw [lookup_strDictSet_ne _ _ _ _ h3, lookup_strDictSet_ne _ _ _ _ h2]
  exact lookup_filter_key_ne k "to" msg h1

theorem forwardMsg_lookup_isSome (msg : Msg) (me : Nat) (rid : String) (k : String)
    (h : ((forwardMsg msg me rid).lookup k).isSome = true) :
    k = "from" ∨ k = "roomId" ∨ ((msg.lookup k).isSome = true ∧ k ≠ "to") := by
  by_cases h3 : k = "roomId"
  · exact Or.inr (Or.inl h3)
  by_cases h2 : k = "from"
  · exact Or.inl h2
  by_cases h1 : k = "to"
  · rw [h1, forwardMsg_lookup_to] at h
    simp at h
  · right; right
    rw [forwardMsg_lookup_other msg me rid k h1 h2 h3] at h
    exact ⟨h, h1⟩

/-! ### Claim C2 -/

/-- Claim C2 (counterexample): the claim as stated fails on the code for a
roomId with surrounding whitespace.  A sends an offer with roomId " r1 " to a
registered B; B receives an envelope whose roomId is the trimmed "r1", not the
inbound value. -/
theorem relay_counterexample_room_id_trimmed :
    ((handle_frame 0 ⟨[(0, 10), (1, 11)], []⟩ (Frame.obj
        [("type", PyVal.vStr "offer"),
         ("to", PyVal.vStr "00000000-0000-0000-0000-000000000001"),
         ("roomId", PyVal.vStr " r1 "), ("sdp", PyVal.vStr "X")]) 0 false).delivered.map
      (fun d => d.2.lookup "roomId")) = some (some (PyVal.vStr "r1")) ∧
    (PyVal.vStr "r1") ≠ (PyVal.vStr " r1 ") := by decide

/-- Claim C2, amended: for sender A and registered recipient B, a routed inbound
message with a recognized type produces exactly one envelope, delivered to the
channel stored for B and nothing sent back to the sender: the envelope keeps
the inbound type value, carries every payload field of the inbound message
except the dropped target field, has from server-stamped to the sender
identity (overriding any client-supplied from field), carries roomId equal to
the normalized room id — the whitespace-trimmed string value of the inbound
roomId, equal to r whenever r is a non-blank string without surrounding
whitespace, and "default" when blank — and carries no other fields. -/
theorem relay_envelope_exact (me : Nat) (st : LoopState) (msg : Msg) (now : Nat)
    (pf : Bool) (B : Nat) (ch : Channel)
    (ht : msg_type msg ∈ recognizedTypes) (hto : to_id msg = some B)
    (hch : st.reg.lookup B = some ch) :
    (handle_frame me st (Frame.obj msg) now pf).delivered =
      some (ch, forwardMsg msg me (room_id msg)) ∧
    (handle_frame me st (Frame.obj msg) now pf).toSender = [] ∧
    (handle_frame me st (Frame.obj msg) now pf).crashed = false ∧
    (forwardMsg msg me (room_id msg)).lookup "type" = msg.lookup "type" ∧
    (∀ k, k ≠ "to" → k ≠ "from" → k ≠ "roomId" →
      (forwardMsg msg me (room_id msg)).lookup k = msg.lookup k) ∧
    (forwardMsg msg me (room_id msg)).lookup "to" = none ∧
    (forwardMsg msg me (room_id msg)).lookup "from" =
      some (PyVal.vStr (uuidToString me)) ∧
    (forwardMsg msg me (room_id msg)).lookup "roomId" =
      some (PyVal.vStr (room_id msg)) ∧
    (∀ k, ((forwardMsg msg me (room_id msg)).lookup k).isSome = true →
      k = "from" ∨ k = "roomId" ∨ ((msg.lookup k).isSome = true ∧ k ≠ "to")) := by
  rw [handle_frame_delivers me st msg now pf B ch ht hto hch]
  exact ⟨rfl, rfl, rfl,
    forwardMsg_lookup_other msg me _ "type" (by decide) (by decide) (by decide),
    fun k h1 h2 h3 => forwardMsg_lookup_other msg me _ k h1 h2 h3,
    forwardMsg_lookup_to msg me _,
    forwardMsg_lookup_from msg me _,
    forwardMsg_lookup_roomId msg me _,
    fun k h => forwardMsg_lookup_isSome msg me _ k h⟩

/-- Claim C2 witness: the amended statement evaluated for a clean room id. -/
theorem relay_envelope_exact_check :
    (handle_frame 0 ⟨[(0, 10), (1, 11)], []⟩ (Frame.obj
        [("type", PyVal.vStr "offer"),
         ("to", PyVal.vStr "00000000-0000-0000-0000-000000000001"),
         ("roomId", PyVal.vStr "r1"), ("sdp", PyVal.vStr "X")]) 0 false).delivered =
      some (11, forwardMsg
        [("type", PyVal.vStr "offer"),
         ("to", PyVal.vStr "00000000-0000-0000-0000-000000000001"),
         ("roomId", PyVal.vStr "r1"), ("sdp", PyVal.vStr "X")] 0 "r1") := by
  have h := (relay_envelope_exact 0 ⟨[(0, 10), (1, 11)], []⟩
    [("type", PyVal.vStr "offer"),
     ("to", PyVal.vStr "00000000-0000-0000-0000-000000000001"),
     ("roomId", PyVal.vStr "r1"), ("sdp", PyVal.vStr "X")] 0 false 1 11
    (by decide) (by decide) (by decide)).1
  have hr : room_id [("type", PyVal.vStr "offer"),
     ("to", PyVal.vStr "00000000-0000-0000-0000-000000000001"),
     ("roomId", PyVal.vStr "r1"), ("sdp", PyVal.vStr "X")] = "r1" := by decide
  rw [hr] at h
  exact h

/-! ### Claim C5 -/

/-- Claim C5: a parsed message whose type is not one of offer, answer, candidate,
hangup draws back exactly the unknown-type error reply; a recognized type whose
target is missing or not a well-formed identity draws back exactly the
missing-target error reply.  In both cases nothing is relayed to any peer, no
call-session update is attempted, the registry is untouched, and no exception
escapes the loop body, so the loop continues and the session is not closed. -/
theorem invalid_routing_reported_nonfatal (me : Nat) (st : LoopState) (msg : Msg)
    (now : Nat) (pf : Bool) :
    (msg_type msg ∉ recognizedTypes →
      handle_frame me st (Frame.obj msg) now pf =
        ⟨st.reg, st.db, [errorUnknown], none, false⟩) ∧
    (msg_type msg ∈ recognizedTypes → to_id msg = none →
      handle_frame me st (Frame.obj msg) now pf =
        ⟨st.reg, st.db, [errorMissingTo], none, false⟩) :=
  ⟨handle_frame_unknown_type me st msg now pf,
   handle_frame_missing_to me st msg now pf⟩

/-- Claim C5 witness: a bogus type draws the unknown-type error; an offer with no
target draws the missing-target error. -/
theorem invalid_routing_reported_nonfatal_check :
    handle_frame 0 ⟨[], []⟩ (Frame.obj [("type", PyVal.vStr "bogus")]) 0 false =
      ⟨[], [], [errorUnknown], none, false⟩ ∧
    handle_frame 0 ⟨[], []⟩ (Frame.obj [("type", PyVal.vStr "offer")]) 0 false =
      ⟨[], [], [errorMissingTo], none, false⟩ :=
  ⟨(invalid_routing_reported_nonfatal 0 ⟨[], []⟩ _ 0 false).1 (by decide),
   (invalid_routing_reported_nonfatal 0 ⟨[], []⟩ _ 0 false).2 (by decide) (by decide)⟩

/-! ### Claim C6 -/

/-- Claim C6: Registry send returns true and writes the message to the stored
channel when the target is registered, and returns false without raising when
the target is absent; and in the loop, whenever delivery returns false the
sender receives exactly the peer_offline notice naming the target and room
while the recipient receives nothing and the session stays up. -/
theorem send_result_and_peer_offline :
    (∀ (conns : Registry) (u : Nat) (m : Msg) (ch : Channel), conns.lookup u = some ch →
      SignalingManager.send_to_user conns u m = (true, some (ch, m))) ∧
    (∀ (conns : Registry) (u : Nat) (m : Msg), conns.lookup u = none →
      SignalingManager.send_to_user conns u m = (false, none)) ∧
    (∀ (me : Nat) (st : LoopState) (msg : Msg) (now : Nat) (pf : Bool) (B : Nat),
      msg_type msg ∈ recognizedTypes → to_id msg = some B → st.reg.lookup B = none →
      (handle_frame me st (Frame.obj msg) now pf).toSender =
        [peerOffline B (room_id msg)] ∧
      (handle_frame me st (Frame.obj msg) now pf).delivered = none ∧
      (handle_frame me st (Frame.obj msg) now pf).crashed = false) := by
  refine ⟨?_, ?_, ?_⟩
  · intro conns u m ch h
    simp [SignalingManager.send_to_user, h]
  · intro conns u m h
    simp [SignalingManager.send_to_user, h]
  · intro me st msg now pf B ht hto hch
    rw [handle_frame_offline me st msg now pf B ht hto hch]
    exact ⟨rfl, rfl, rfl⟩

/-- Claim C6 witness: delivery to a registered and to an absent user, and the
peer_offline reply for an offer to an unregistered target. -/
theorem send_result_and_peer_offline_check :
    SignalingManager.send_to_user [(1, 11)] 1 [] = (true, some (11, [])) ∧
    SignalingManager.send_to_user [] 1 [] = (false, none) ∧
    (handle_frame 0 ⟨[(0, 5)], []⟩ (Frame.obj
        [("type", PyVal.vStr "offer"),
         ("to", PyVal.vStr "00000000-0000-0000-0000-000000000001")]) 0 false).toSender =
      [peerOffline 1 "default"] :=
  ⟨send_result_and_peer_offline.1 [(1, 11)] 1 [] 11 (by decide),
   send_result_and_peer_offline.2.1 [] 1 [] (by decide),
   (send_result_and_peer_offline.2.2 0 ⟨[(0, 5)], []⟩
     [("type", PyVal.vStr "offer"),
      ("to", PyVal.vStr "00000000-0000-0000-0000-000000000001")] 0 false 1
     (by decide) (by decide) (by decide)).1⟩

/-! ### Claim C7 -/

/-- Claim C7: for every valid routed message, a failure raised by the
call-session persistence update is caught and swallowed: the replies to the
sender and the delivered envelope are identical to what they are when
persistence succeeds, no exception escapes the loop body, and the rolled-back
table and the registry are left unchanged. -/
theorem persistence_failure_swallowed (me : Nat) (st : LoopState) (msg : Msg)
    (now : Nat) (B : Nat) (ht : msg_type msg ∈ recognizedTypes)
    (hto : to_id msg = some B) :
    (handle_frame me st (Frame.obj msg) now true).toSender =
      (handle_frame me st (Frame.obj msg) now false).toSender ∧
    (handle_frame me st (Frame.obj msg) now true).delivered =
      (handle_frame me st (Frame.obj msg) now false).delivered ∧
    (handle_frame me st (Frame.obj msg) now true).crashed = false ∧
    (handle_frame me st (Frame.obj msg) now true).db = st.db ∧
    (handle_frame me st (Frame.obj msg) now true).reg = st.reg := by
  cases hch : st.reg.lookup B with
  | none =>
    rw [handle_frame_offline me st msg now true B ht hto hch,
        handle_frame_offline me st msg now false B ht hto hch]
    exact ⟨rfl, rfl, rfl, rfl, rfl⟩
  | some ch =>
    rw [handle_frame_delivers me st msg now true B ch ht hto hch,
        handle_frame_delivers me st msg now false B ch ht hto hch]
    exact ⟨rfl, rfl, rfl, rfl, rfl⟩

/-- Claim C7 witness: an offer whose persistence update fails is still delivered
exactly as in the success case, with the table left unchanged. -/
theorem persistence_failure_swallowed_check :
    (handle_frame 0 ⟨[(1, 11)], []⟩ (Frame.obj
        [("type", PyVal.vStr "offer"),
         ("to", PyVal.vStr "00000000-0000-0000-0000-000000000001")]) 3 true).delivered =
      (handle_frame 0 ⟨[(1, 11)], []⟩ (Frame.obj
        [("type", PyVal.vStr "offer"),
         ("to", PyVal.vStr "00000000-0000-0000-0000-000000000001")]) 3 false).delivered ∧
    (handle_frame 0 ⟨[(1, 11)], []⟩ (Frame.obj
        [("type", PyVal.vStr "offer"),
         ("to", PyVal.vStr "00000000-0000-0000-0000-000000000001")]) 3 true).db = [] :=
  ⟨(persistence_failure_swallowed 0 ⟨[(1, 11)], []⟩
      [("type", PyVal.vStr "offer"),
       ("to", PyVal.vStr "00000000-0000-0000-0000-000000000001")] 3 1
      (by decide) (by decide)).2.1,
   (persistence_failure_swallowed 0 ⟨[(1, 11)], []⟩
      [("type", PyVal.vStr "offer"),
       ("to", PyVal.vStr "00000000-0000-0000-0000-000000000001")] 3 1
      (by decide) (by decide)).2.2.2.1⟩

/-! ### Call-session table lemmas -/

theorem apply_event_preserves_ids (s : CallSession) (et : String) (now : Nat) :
    (apply_event s et now).room_id = s.room_id ∧
    (apply_event s et now).caller_user_id = s.caller_user_id ∧
    (apply_event s et now).callee_user_id = s.callee_user_id := by
  unfold apply_event
  by_cases h : et = "hangup" <;> simp [h]

theorem apply_event_hangup (s : CallSession) (now : Nat) :
    apply_event s "hangup" now =
      { s with last_event_type := some "hangup", last_event_at := some now,
               active := false, ended_at := some now } := rfl

theorem touch_creates (db : List CallSession) (rid : String) (c e : Nat)
    (et : String) (now : Nat)
    (h : ∀ t ∈ db, ¬ (t.room_id = rid ∧ t.active = true)) :
    touch_call_session db rid c e et now = db ++ [new_call_session rid c e et now] := by
  induction db with
  | nil => rfl
  | cons s rest ih =>
    simp only [touch_call_session]
    rw [if_neg (h s (List.mem_cons_self s rest))]
    rw [ih (fun t ht => h t (List.mem_cons_of_mem s ht))]
    rfl

theorem touch_updates_first_active (pre : List CallSession) (s : CallSession)
    (post : List CallSession) (rid : String) (c e : Nat) (et : String) (now : Nat)
    (hpre : ∀ t ∈ pre, ¬ (t.room_id = rid ∧ t.active = true))
    (h1 : s.room_id = rid) (h2 : s.active = true) :
    touch_call_session (pre ++ s :: post) rid c e et now =
      pre ++ apply_event s et now :: post := by
  induction pre with
  | nil =>
    simp only [List.nil_append, touch_call_session]
    rw [if_pos ⟨h1, h2⟩]
  | cons p pre2 ih =>
    simp only [List.cons_append, touch_call_session]
    rw [if_neg (hpre p (List.mem_cons_self p pre2))]
    simp only [List.append_eq]
    rw [ih (fun t ht => hpre t (List.mem_cons_of_mem p ht))]

theorem activeCount_touch_other (db : List CallSession) (rid r2 : String) (c e : Nat)
    (et : String) (now : Nat) (h : r2 ≠ rid) :
    activeCount r2 (touch_call_session db rid c e et now) = activeCount r2 db := by
  induction db with
  | nil =>
    simp [touch_call_session, activeCount, new_call_session, List.countP_cons,
      Ne.symm h]
  | cons s rest ih =>
    by_cases hs : s.room_id = rid ∧ s.active = true
    · simp only [touch_call_session, if_pos hs]
      unfold activeCount
      rw [List.countP_cons, List.countP_cons]
      have e1 : decide (s.room_id = r2 ∧ s.active = true) = false := by
        simp [hs.1, Ne.symm h]
      have e2 : decide ((apply_event s et now).room_id = r2 ∧
          (apply_event s et now).active = true) = false := by
        simp [(apply_event_preserves_ids s et now).1, hs.1, Ne.symm h]
      rw [e1, e2]
    · simp only [touch_call_session, if_neg hs]
      unfold activeCount at ih ⊢
      rw [List.countP_cons, List.countP_cons, ih]

theorem activeCount_touch_self (db : List CallSession) (rid : String) (c e : Nat)
    (et : String) (now : Nat) (h : activeCount rid db ≤ 1) :
    activeCount rid (touch_call_session db rid c e et now) ≤ 1 := by
  induction db with
  | nil =>
    simp [touch_call_session, activeCount, new_call_session, List.countP_cons]
  | cons s rest ih =>
    by_cases hs : s.room_id = rid ∧ s.active = true
    · simp only [touch_call_session, if_pos hs]
      have e1 : decide (s.room_id = rid ∧ s.active = true) = true := by
        simpa using hs
      unfold activeCount at h ⊢
      rw [List.countP_cons, e1] at h
      rw [List.countP_cons]
      simp only [if_true] at h
      split <;> omega
    · simp only [touch_call_session, if_neg hs]
      have e1 : decide (s.room_id = rid ∧ s.active = true) = false := by
        simpa using hs
      have hz : (if (false = true) then 1 else 0) = 0 := by simp
      unfold activeCount at h ih ⊢
      rw [List.countP_cons, e1, hz] at h
      rw [List.countP_cons, e1, hz]
      simpa using ih (by simpa using h)

theorem touch_preserves_existing (db : List CallSession) (rid : String) (c e : Nat)
    (et : String) (now : Nat) (i : Nat) (s : CallSession) (h : db[i]? = some s) :
    ∃ s2, (touch_call_session db rid c e et now)[i]? = some s2 ∧
      s2.caller_user_id = s.caller_user_id ∧ s2.callee_user_id = s.callee_user_id ∧
      s2.room_id = s.room_id := by
  induction db generalizing i with
  | nil => simp at h
  | cons p rest ih =>
    by_cases hp : p.room_id = rid ∧ p.active = true
    · simp only [touch_call_session, if_pos hp]
      cases i with
      | zero =>
        simp only [List.getElem?_cons_zero, Option.some.injEq] at h
        refine ⟨apply_event p et now, by simp, ?_, ?_, ?_⟩
        · rw [(apply_event_preserves_ids p et now).2.1, h]
        · rw [(apply_event_preserves_ids p et now).2.2, h]
        · rw [(apply_event_preserves_ids p et now).1, h]
      | succ n =>
        simp only [List.getElem?_cons_succ] at h ⊢
        exact ⟨s, h, rfl, rfl, rfl⟩
    · simp only [touch_call_session, if_neg hp]
      cases i with
      | zero =>
        simp only [List.getElem?_cons_zero, Option.some.injEq] at h ⊢
        exact ⟨p, rfl, by rw [h], by rw [h], by rw [h]⟩
      | succ n =>
        simp only [List.getElem?_cons_succ] at h ⊢
        exact ih n h

/-! ### Claim C3 -/

/-- Claim C3: the call-session record for each room follows absent, then active,
then inactive.  Conjuncts: the touch operation preserves the at-most-one-active
invariant for every room; a hangup on a room whose first active record is s
updates exactly that record, deactivating it with ended_at set; a non-hangup
event on a room with no active record appends a fresh active record whose
caller and callee come from the message sender and recipient; and no event ever
reassigns the caller, callee, or room of an existing record. -/
theorem call_session_state_machine :
    (∀ (db : List CallSession) (rid : String) (c e : Nat) (et : String) (now : Nat)
      (r2 : String), activeCount r2 db ≤ 1 →
      activeCount r2 (touch_call_session db rid c e et now) ≤ 1) ∧
    (∀ (pre : List CallSession) (s : CallSession) (post : List CallSession)
      (rid : String) (c e : Nat) (now : Nat),
      (∀ t ∈ pre, ¬ (t.room_id = rid ∧ t.active = true)) →
      s.room_id = rid → s.active = true →
      touch_call_session (pre ++ s :: post) rid c e "hangup" now =
        pre ++ { s with last_event_type := some "hangup", last_event_at := some now,
                        active := false, ended_at := some now } :: post) ∧
    (∀ (db : List CallSession) (rid : String) (c e : Nat) (et : String) (now : Nat),
      et ≠ "hangup" → (∀ t ∈ db, ¬ (t.room_id = rid ∧ t.active = true)) →
      touch_call_session db rid c e et now = db ++ [new_call_session rid c e et now] ∧
      (new_call_session rid c e et now).active = true ∧
      (new_call_session rid c e et now).ended_at = none ∧
      (new_call_session rid c e et now).caller_user_id = c ∧
      (new_call_session rid c e et now).callee_user_id = e) ∧
    (∀ (db : List CallSession) (rid : String) (c e : Nat) (et : String) (now : Nat)
      (i : Nat) (s : CallSession), db[i]? = some s →
      ∃ s2, (touch_call_session db rid c e et now)[i]? = some s2 ∧
        s2.caller_user_id = s.caller_user_id ∧ s2.callee_user_id = s.callee_user_id ∧
        s2.room_id = s.room_id) := by
  refine ⟨?_, ?_, ?_, ?_⟩
  · intro db rid c e et now r2 h
    by_cases h2 : r2 = rid
    · subst h2
      exact activeCount_touch_self db r2 c e et now h
    · rw [activeCount_touch_other db rid r2 c e et now h2]
      exact h
  · intro pre s post rid c e now hpre h1 h2
    rw [touch_updates_first_active pre s post rid c e "hangup" now hpre h1 h2,
        apply_event_hangup]
  · intro db rid c e et now hne h
    exact ⟨touch_creates db rid c e et now h, rfl, rfl, rfl, rfl⟩
  · intro db rid c e et now i s h
    exact touch_preserves_existing db rid c e et now i s h

/-- Claim C3 witness: an offer on an empty table creates an active record; a
hangup then deactivates exactly that record with the end time set; the
one-active invariant holds at the creation step. -/
theorem call_session_state_machine_check :
    touch_call_session [] "r1" 0 1 "offer" 5 =
      [] ++ [new_call_session "r1" 0 1 "offer" 5] ∧
    touch_call_session ([] ++ new_call_session "r1" 0 1 "offer" 5 :: []) "r1" 0 1 "hangup" 6 =
      [] ++ { new_call_session "r1" 0 1 "offer" 5 with
              last_event_type := some "hangup", last_event_at := some 6,
              active := false, ended_at := some 6 } :: [] ∧
    activeCount "r1" (touch_call_session [] "r1" 0 1 "offer" 5) ≤ 1 :=
  ⟨(call_session_state_machine.2.2.1 [] "r1" 0 1 "offer" 5 (by decide) (by simp)).1,
   call_session_state_machine.2.1 [] (new_call_session "r1" 0 1 "offer" 5) [] "r1" 0 1 6
     (by simp) (by decide) (by decide),
   call_session_state_machine.1 [] "r1" 0 1 "offer" 5 "r1" (by decide)⟩

/-! ### Claim C9 -/

/-- Claim C9: when the inbound roomId is absent or blank (its string value
strips to the empty string), the room id used everywhere is the literal string
"default": in the forwarded envelope, in the peer_offline reply, and in the
call-session update. -/
theorem blank_room_id_defaults (msg : Msg)
    (hblank : pyStrip (strOrEmpty (msg.lookup "roomId")) = "") :
    room_id msg = "default" ∧
    (∀ (me : Nat) (st : LoopState) (now : Nat) (pf : Bool) (B : Nat) (ch : Channel),
      msg_type msg ∈ recognizedTypes → to_id msg = some B →
      st.reg.lookup B = some ch →
      (handle_frame me st (Frame.obj msg) now pf).delivered =
        some (ch, forwardMsg msg me "default") ∧
      (forwardMsg msg me "default").lookup "roomId" = some (PyVal.vStr "default")) ∧
    (∀ (me : Nat) (st : LoopState) (now : Nat) (pf : Bool) (B : Nat),
      msg_type msg ∈ recognizedTypes → to_id msg = some B →
      st.reg.lookup B = none →
      (handle_frame me st (Frame.obj msg) now pf).toSender =
        [peerOffline B "default"]) ∧
    (∀ (me : Nat) (st : LoopState) (now : Nat) (B : Nat),
      msg_type msg ∈ recognizedTypes → to_id msg = some B →
      (handle_frame me st (Frame.obj msg) now false).db =
        touch_call_session st.db "default" me B (msg_type msg) now) := by
  have hrid : room_id msg = "default" := by
    unfold room_id
    rw [hblank]
    simp
  refine ⟨hrid, ?_, ?_, ?_⟩
  · intro me st now pf B ch ht hto hch
    rw [handle_frame_delivers me st msg now pf B ch ht hto hch, hrid]
    exact ⟨rfl, forwardMsg_lookup_roomId msg me "default"⟩
  · intro me st now pf B ht hto hch
    rw [handle_frame_offline me st msg now pf B ht hto hch, hrid]
  · intro me st now B ht hto
    cases hch : st.reg.lookup B with
    | none =>
      rw [handle_frame_offline me st msg now false B ht hto hch, hrid]
      rfl
    | some ch =>
      rw [handle_frame_delivers me st msg now false B ch ht hto hch, hrid]
      rfl

/-- Claim C9 witness: with no roomId field, both the normalized room id and the
peer_offline reply use "default". -/
theorem blank_room_id_defaults_check :
    room_id [("type", PyVal.vStr "offer"),
             ("to", PyVal.vStr "00000000-0000-0000-0000-000000000001")] = "default" ∧
    (handle_frame 0 ⟨[], []⟩ (Frame.obj
        [("type", PyVal.vStr "offer"),
         ("to", PyVal.vStr "00000000-0000-0000-0000-000000000001")]) 0 false).toSender =
      [peerOffline 1 "default"] :=
  ⟨(blank_room_id_defaults _ (by decide)).1,
   (blank_room_id_defaults _ (by decide)).2.2.1 0 ⟨[], []⟩ 0 false 1
     (by decide) (by decide) (by decide)⟩

/-! ### Claim C10 -/

/-- Claim C10: self-addressed messages are relayed like any other.  When the
sender is registered and targets its own identity, the envelope is delivered
back to the sender channel (send returns true, so no peer_offline), stamped
from the sender identity, and on a room with no active record a call-session
record is created whose caller equals its callee. -/
theorem self_addressed_messages_relayed (me : Nat) (st : LoopState) (msg : Msg)
    (now : Nat) (ch : Channel)
    (ht : msg_type msg ∈ recognizedTypes) (hto : to_id msg = some me)
    (hch : st.reg.lookup me = some ch)
    (hnoact : ∀ t ∈ st.db, ¬ (t.room_id = room_id msg ∧ t.active = true)) :
    (handle_frame me st (Frame.obj msg) now false).delivered =
      some (ch, forwardMsg msg me (room_id msg)) ∧
    (handle_frame me st (Frame.obj msg) now false).toSender = [] ∧
    (forwardMsg msg me (room_id msg)).lookup "from" =
      some (PyVal.vStr (uuidToString me)) ∧
    (handle_frame me st (Frame.obj msg) now false).db =
      st.db ++ [new_call_session (room_id msg) me me (msg_type msg) now] ∧
    (new_call_session (room_id msg) me me (msg_type msg) now).caller_user_id =
      (new_call_session (room_id msg) me me (msg_type msg) now).callee_user_id := by
  rw [handle_frame_delivers me st msg now false me ch ht hto hch]
  refine ⟨rfl, rfl, forwardMsg_lookup_from msg me _, ?_, rfl⟩
  show (if false = true then st.db
    else touch_call_session st.db (room_id msg) me me (msg_type msg) now) = _
  rw [if_neg (by simp)]
  exact touch_creates st.db (room_id msg) me me (msg_type msg) now hnoact

/-- Claim C10 witness: an offer from user 0 to itself is delivered back to its
own channel and creates a record with caller equal to callee. -/
theorem self_addressed_messages_relayed_check :
    (handle_frame 0 ⟨[(0, 10)], []⟩ (Frame.obj
        [("type", PyVal.vStr "offer"),
         ("to", PyVal.vStr "00000000-0000-0000-0000-000000000000"),
         ("roomId", PyVal.vStr "r1")]) 4 false).delivered =
      some (10, forwardMsg
        [("type", PyVal.vStr "offer"),
         ("to", PyVal.vStr "00000000-0000-0000-0000-000000000000"),
         ("roomId", PyVal.vStr "r1")] 0
        (room_id [("type", PyVal.vStr "offer"),
         ("to", PyVal.vStr "00000000-0000-0000-0000-000000000000"),
         ("roomId", PyVal.vStr "r1")])) :=
  (self_addressed_messages_relayed 0 ⟨[(0, 10)], []⟩
    [("type", PyVal.vStr "offer"),
     ("to", PyVal.vStr "00000000-0000-0000-0000-000000000000"),
     ("roomId", PyVal.vStr "r1")] 4 10 (by decide) (by decide) (by decide)
    (by simp)).1

/-! ### Claim C8 -/

/-- Claim C8: on every exit from the read loop — graceful disconnect, abrupt
transport failure, or an exception raised inside the loop body — the `finally`
block unregisters the caller, so no exit path leaves the registration in
place: after an exited session, the registry has no entry for the caller. -/
theorem unregistered_on_any_exit (me : Nat) (ch : Channel) (reg0 : Registry)
    (db0 : List CallSession) (events : List InEvent)
    (h : (signaling_loop me ch reg0 db0 events).exited = true) :
    (signaling_loop me ch reg0 db0 events).reg.lookup me = none := by
  unfold signaling_loop at h ⊢
  by_cases hr : (run_loop me ⟨SignalingManager.connect reg0 me ch, db0⟩ events).exited
  · simp only [hr, if_true]
    exact lookup_filter_key_none me _
  · simp [hr] at h

/-- Claim C8 witness: a session closed by a client disconnect ends unregistered. -/
theorem unregistered_on_any_exit_check :
    (signaling_loop 0 1 [] [] [InEvent.wsDisconnect]).exited = true ∧
    (signaling_loop 0 1 [] [] [InEvent.wsDisconnect]).reg.lookup 0 = none :=
  ⟨by decide, unregistered_on_any_exit 0 1 [] [] [InEvent.wsDisconnect] (by decide)⟩

end Signaling
